import Mathlib

/-!
Verification of the trust-dns `dns` CLI utility (`src/util/src/dns.rs`).

The program is a single-shot DNS client: it builds one transport connection
(UDP, TCP, TLS, HTTPS, or QUIC), dispatches exactly one operation
(query / notify / create / append / delete-record) through a client handle,
and renders the single response.

The shallow embedding below mirrors the source file:

* `Opts`, `Protocol`, `Command` and the per-command option structures mirror
  the clap-derived argument structures.  The source field `class` is a Lean
  keyword, so it is named `cls` here.
* `main` and `handle_request` are translated as pure functions producing a
  pair: the list of observable events (stdout lines, transport
  establishment, request submission) in program order, together with an
  `Except` result.  A Rust `expect` panic is modelled as
  `Except.error (DnsError.expectPanic msg)` carrying the source's message.
* The `Event.connect` event marks the `AsyncClient::connect` /
  `AsyncClient::new(..).await` call site in each protocol arm of `main`,
  i.e. the point where the transport is established (socket connect and,
  for TLS/HTTPS/QUIC, the handshake).  For TLS/HTTPS/QUIC the event carries
  the `ClientConfig` in force at that point.
* `record_set_from` emits the marker event `Event.enterRecordSetFrom` when
  it is called, so that reachability of the record-set builder is visible
  in the trace.
* The downstream DNS library (record-data parsers, `RecordSet` API) and the
  rustls `ClientConfig` are external collaborators of this file's source;
  they are modelled from the spec where noted.
-/

set_option autoImplicit false

namespace DnsCli

/-- DNS names are handled opaquely by this program; they are modelled by
their textual form. -/
abbrev Name := String

/-- Modelled from the spec: the DNS class enumeration supplied by the
downstream DNS library (`DNSClass`); the program only threads it through. -/
inductive DNSClass
  | IN
  | CH
  | HS
  | NONE
  | ANY
deriving DecidableEq

/-- Display form of a `DNSClass`, as used by the `{class}` interpolations. -/
def DNSClass.toStr : DNSClass → String
  | .IN => "IN"
  | .CH => "CH"
  | .HS => "HS"
  | .NONE => "NONE"
  | .ANY => "ANY"

/-- Modelled from the spec: the record-type grammar is supplied by the
downstream DNS library (`RecordType`); two concrete types (`A`, `TXT`)
suffice for the program's behaviour, which is uniform in the type. -/
inductive RecordType
  | A
  | TXT
deriving DecidableEq

/-- Display form of a `RecordType`. -/
def RecordType.toStr : RecordType → String
  | .A => "A"
  | .TXT => "TXT"

/-- Modelled from the spec: record data (`RData`) values produced by the
downstream textual parsers. -/
inductive RData
  | A (a b c d : Nat)
  | TXT (txt : String)
deriving DecidableEq

/-- Parse a non-empty all-digit character list as a decimal number. -/
def parseDecimal (cs : List Char) : Option Nat :=
  if cs = [] then none
  else
    cs.foldl
      (fun acc c =>
        match acc with
        | none => none
        | some n => if c.isDigit then some (n * 10 + (c.toNat - 48)) else none)
      (some 0)

/-- Split a character list on `'.'` separators (dotted-quad groups). -/
def splitDots : List Char → List (List Char)
  | [] => [[]]
  | c :: rest =>
    let r := splitDots rest
    if c = '.' then [] :: r
    else
      match r with
      | [] => [[c]]
      | g :: gs => (c :: g) :: gs

/-- Modelled from the spec: the downstream library's strict textual
record-data parser keyed by record type (`RData::try_from_str`).  An `A`
record is a dotted quad of decimal octets; `TXT` accepts any string.
Returns `none` exactly on strings that are not a valid textual form of the
type. -/
def try_from_str (ty : RecordType) (s : String) : Option RData :=
  match ty with
  | RecordType.A =>
    match (splitDots s.data).mapM parseDecimal with
    | some [a, b, c, d] =>
      if a ≤ 255 && b ≤ 255 && c ≤ 255 && d ≤ 255 then some (RData.A a b c d)
      else none
    | _ => none
  | RecordType.TXT => some (RData.TXT s)

/-- Modelled from the spec: a `RecordSet` is a name + class + type + TTL +
ordered collection of parsed record-data values. -/
structure RecordSet where
  name : Name
  record_type : RecordType
  ttl : Nat
  dns_class : DNSClass
  records : List RData
deriving DecidableEq

/-- Modelled from the spec: `RecordSet::with_ttl` constructs an empty set
with the given name, type and TTL (class initially `IN`, no records). -/
def RecordSet.with_ttl (name : Name) (record_type : RecordType) (ttl : Nat) : RecordSet :=
  { name := name, record_type := record_type, ttl := ttl
    dns_class := DNSClass.IN, records := [] }

/-- Modelled from the spec: `RecordSet::set_dns_class` replaces the class. -/
def RecordSet.set_dns_class (rs : RecordSet) (c : DNSClass) : RecordSet :=
  { rs with dns_class := c }

/-- Modelled from the spec: `RecordSet::add_rdata` appends one record-data
value, preserving insertion order ("ordered collection"). -/
def RecordSet.add_rdata (rs : RecordSet) (d : RData) : RecordSet :=
  { rs with records := rs.records ++ [d] }

/-- `QueryOpt`: name and type of the record to query. -/
structure QueryOpt where
  name : Name
  ty : RecordType
deriving DecidableEq

/-- `NotifyOpt`: name, type, and optional record data. -/
structure NotifyOpt where
  name : Name
  ty : RecordType
  rdata : List String
deriving DecidableEq

/-- `CreateOpt`: name, type, TTL, and record data. -/
structure CreateOpt where
  name : Name
  ty : RecordType
  ttl : Nat
  rdata : List String
deriving DecidableEq

/-- `AppendOpt`: must-exist flag, name, type, TTL, and record data. -/
structure AppendOpt where
  must_exist : Bool
  name : Name
  ty : RecordType
  ttl : Nat
  rdata : List String
deriving DecidableEq

/-- `DeleteRecordOpt`: name, type, and record data (no TTL argument). -/
structure DeleteRecordOpt where
  name : Name
  ty : RecordType
  rdata : List String
deriving DecidableEq

/-- The `Command` subcommand enumeration. -/
inductive Command
  | query (q : QueryOpt)
  | notify (o : NotifyOpt)
  | create (o : CreateOpt)
  | append (o : AppendOpt)
  | deleteRecord (o : DeleteRecordOpt)
deriving DecidableEq

/-- The update-class commands (those whose `handle_request` arm demands a
zone): Create, Append, DeleteRecord. -/
def Command.isUpdate : Command → Bool
  | .create _ => true
  | .append _ => true
  | .deleteRecord _ => true
  | _ => false

/-- The raw record-data strings carried by a command (empty for Query). -/
def Command.rdataOf : Command → List String
  | .query _ => []
  | .notify o => o.rdata
  | .create o => o.rdata
  | .append o => o.rdata
  | .deleteRecord o => o.rdata

/-- The declared record type of a command. -/
def Command.tyOf : Command → RecordType
  | .query q => q.ty
  | .notify o => o.ty
  | .create o => o.ty
  | .append o => o.ty
  | .deleteRecord o => o.ty

/-- The state of the certificate/signature verifier installed in a TLS
client configuration: either the default webpki-roots chain verification,
or the `DangerousVerifier` installed by
`ClientConfig::dangerous().set_certificate_verifier`. -/
inductive Verifier
  | webpkiDefault
  | dangerous
deriving DecidableEq

/-- The rustls `ClientConfig`, restricted to the parts the program
observes/mutates: which verifier is installed and the `alpn_protocols`
list (ALPN values are byte strings; modelled by their textual form). -/
structure ClientConfig where
  verifier : Verifier
  alpn_protocols : List String
deriving DecidableEq

/-- `tls_config()`: a client configuration seeded with the webpki root
bundle, default verifier, empty ALPN list. -/
def tls_config : ClientConfig :=
  { verifier := Verifier.webpkiDefault, alpn_protocols := [] }

/-- Modelled from the spec: `quic::client_config_tls13_webpki_roots()`, the
library-provided QUIC TLS 1.3 configuration seeded with webpki roots
(default verifier, empty ALPN list). -/
def client_config_tls13_webpki_roots : ClientConfig :=
  { verifier := Verifier.webpkiDefault, alpn_protocols := [] }

/-- `do_not_verify_nameserver_cert`: installs the `DangerousVerifier` via
`tls_config.dangerous().set_certificate_verifier(Arc::new(DangerousVerifier))`. -/
def do_not_verify_nameserver_cert (c : ClientConfig) : ClientConfig :=
  { c with verifier := Verifier.dangerous }

/-- A DER certificate, modelled as its byte list. -/
abbrev Certificate := List Nat

/-- A rustls `ServerName`, modelled by its textual form. -/
abbrev ServerName := String

/-- A rustls `DigitallySignedStruct`, modelled as its byte list. -/
abbrev DigitallySignedStruct := List Nat

/-- rustls errors (never produced by `DangerousVerifier`). -/
abbrev RustlsError := String

/-- Witness type for a successful server-certificate verification. -/
inductive ServerCertVerified
  | assertion
deriving DecidableEq

/-- Witness type for a successful handshake-signature verification. -/
inductive HandshakeSignatureValid
  | assertion
deriving DecidableEq

/-- The warning line printed by every `DangerousVerifier` routine. -/
def insecureWarning : String :=
  ";!!!THIS IS NOT VERIFYING THE SERVER TLS CERTIFICATE!!!"

/-- `DangerousVerifier::verify_server_cert`: prints the warning line and
unconditionally succeeds.  The returned pair is (stdout lines, result). -/
def DangerousVerifier.verify_server_cert (_end_entity : Certificate)
    (_intermediates : List Certificate) (_server_name : ServerName)
    (_scts : List (List Nat)) (_ocsp_response : List Nat) (_now : Nat) :
    List String × Except RustlsError ServerCertVerified :=
  ([insecureWarning], Except.ok ServerCertVerified.assertion)

/-- `DangerousVerifier::verify_tls12_signature`: prints the warning line and
unconditionally succeeds. -/
def DangerousVerifier.verify_tls12_signature (_message : List Nat)
    (_cert : Certificate) (_dss : DigitallySignedStruct) :
    List String × Except RustlsError HandshakeSignatureValid :=
  ([insecureWarning], Except.ok HandshakeSignatureValid.assertion)

/-- `DangerousVerifier::verify_tls13_signature`: prints the warning line and
unconditionally succeeds. -/
def DangerousVerifier.verify_tls13_signature (_message : List Nat)
    (_cert : Certificate) (_dss : DigitallySignedStruct) :
    List String × Except RustlsError HandshakeSignatureValid :=
  ([insecureWarning], Except.ok HandshakeSignatureValid.assertion)

/-- A fatal error of the program; `expectPanic msg` models a Rust
`expect(msg)` panic on `None`. -/
inductive DnsError
  | expectPanic (msg : String)
deriving DecidableEq

/-- The panic message of the `zone.expect(..)` calls in `handle_request`. -/
def zoneErr : DnsError :=
  DnsError.expectPanic "zone is required for dynamic update operations"

/-- The panic message of the `expect("failed to parse rdata")` call in
`record_set_from`. -/
def parseErr : DnsError := DnsError.expectPanic "failed to parse rdata"

/-- A request submitted through the client handle. -/
inductive Request
  | query (name : Name) (cls : DNSClass) (ty : RecordType)
  | notify (name : Name) (cls : DNSClass) (ty : RecordType) (rset : Option RecordSet)
  | create (rset : RecordSet) (zone : Name)
  | append (rset : RecordSet) (zone : Name) (must_exist : Bool)
  | delete_by_rdata (rset : RecordSet) (zone : Name)
deriving DecidableEq

/-- The record sets carried by a submitted request. -/
def Request.recordSets : Request → List RecordSet
  | .query _ _ _ => []
  | .notify _ _ _ none => []
  | .notify _ _ _ (some rs) => [rs]
  | .create rs _ => [rs]
  | .append rs _ _ => [rs]
  | .delete_by_rdata rs _ => [rs]

/-- The transport-establishment event of each protocol arm of `main`; for
TLS/HTTPS/QUIC it carries the client configuration in force when the
connection is built. -/
inductive ConnectInfo
  | udp (ns : String)
  | tcp (ns : String)
  | tls (ns : String) (dns_name : String) (config : ClientConfig)
  | https (ns : String) (dns_name : String) (config : ClientConfig)
  | quic (ns : String) (dns_name : String) (config : ClientConfig)
deriving DecidableEq

/-- The TLS client configuration carried by a connect event, when any. -/
def ConnectInfo.configOf : ConnectInfo → Option ClientConfig
  | .udp _ => none
  | .tcp _ => none
  | .tls _ _ c => some c
  | .https _ _ c => some c
  | .quic _ _ c => some c

/-- Observable events of a run, in program order. -/
inductive Event
  | print (line : String)
  | connect (info : ConnectInfo)
  | enterRecordSetFrom
  | submit (req : Request)
  | response
deriving DecidableEq

/-- The connect events of a trace, in order. -/
def connects (t : List Event) : List ConnectInfo :=
  t.filterMap fun e =>
    match e with
    | Event.connect i => some i
    | _ => none

/-- The submitted requests of a trace, in order. -/
def submits (t : List Event) : List Request :=
  t.filterMap fun e =>
    match e with
    | Event.submit r => some r
    | _ => none

/-- The loop body of `record_set_from`: parsing is lazy (an iterator
adapter), so each string is parsed just before being added; the first
unparsable string panics with "failed to parse rdata", after the earlier
values have already been added. -/
def addAll (parse : RecordType → String → Option RData) (ty : RecordType) :
    RecordSet → List String → Except DnsError RecordSet
  | rs, [] => Except.ok rs
  | rs, r :: rest =>
    match parse ty r with
    | none => Except.error parseErr
    | some d => addAll parse ty (rs.add_rdata d) rest

/-- `record_set_from`: builds the record set by constructing an empty set
with name/type/TTL, setting its class, then adding each parsed record-data
value in input order.  The `Event.enterRecordSetFrom` marker records that
the function was called.  The parser is the downstream library's
`RData::try_from_str`, taken as a parameter. -/
def record_set_from (parse : RecordType → String → Option RData) (name : Name)
    (cls : DNSClass) (record_type : RecordType) (ttl : Nat)
    (rdata : List String) : List Event × Except DnsError RecordSet :=
  ([Event.enterRecordSetFrom],
    addAll parse record_type
      ((RecordSet.with_ttl name record_type ttl).set_dns_class cls) rdata)

/-- The response-rendering tail of a successful `handle_request`:
`println!("; received response")` followed by printing the message
(`Event.response`, whose text comes from the network). -/
def respTail : List Event := [Event.print "; received response", Event.response]

/-- `handle_request`: dispatches one command through the client handle.
Each arm mirrors the source: update operations demand a zone first
(`zone.expect`), then build their record set, then print the summary line
and submit. -/
def handle_request (parse : RecordType → String → Option RData)
    (cls : DNSClass) (zone : Option Name) (command : Command) :
    List Event × Except DnsError Unit :=
  match command with
  | Command.query q =>
    let name := q.name
    let clsS := cls.toStr
    let tyS := q.ty.toStr
    ([Event.print s!"; sending query: {name} {clsS} {tyS}",
      Event.submit (Request.query q.name cls q.ty)] ++ respTail,
      Except.ok ())
  | Command.notify o =>
    let name := o.name
    let clsS := cls.toStr
    let tyS := o.ty.toStr
    if o.rdata.isEmpty then
      ([Event.print s!"; sending notify: {name} {clsS} {tyS}",
        Event.submit (Request.notify o.name cls o.ty none)] ++ respTail,
        Except.ok ())
    else
      let rsf := record_set_from parse o.name cls o.ty 0 o.rdata
      match rsf.2 with
      | Except.error e => (rsf.1, Except.error e)
      | Except.ok rs =>
        (rsf.1 ++
          [Event.print s!"; sending notify: {name} {clsS} {tyS}",
            Event.submit (Request.notify o.name cls o.ty (some rs))] ++ respTail,
          Except.ok ())
  | Command.create o =>
    match zone with
    | none => ([], Except.error zoneErr)
    | some z =>
      let name := o.name
      let clsS := cls.toStr
      let tyS := o.ty.toStr
      let rsf := record_set_from parse o.name cls o.ty o.ttl o.rdata
      match rsf.2 with
      | Except.error e => (rsf.1, Except.error e)
      | Except.ok rs =>
        (rsf.1 ++
          [Event.print s!"; sending create: {name} {clsS} {tyS} in {z}",
            Event.submit (Request.create rs z)] ++ respTail,
          Except.ok ())
  | Command.append o =>
    match zone with
    | none => ([], Except.error zoneErr)
    | some z =>
      let name := o.name
      let clsS := cls.toStr
      let tyS := o.ty.toStr
      let me := o.must_exist
      let rsf := record_set_from parse o.name cls o.ty o.ttl o.rdata
      match rsf.2 with
      | Except.error e => (rsf.1, Except.error e)
      | Except.ok rs =>
        (rsf.1 ++
          [Event.print
              s!"; sending append: {name} {clsS} {tyS} in {z} and must_exist({me})",
            Event.submit (Request.append rs z o.must_exist)] ++ respTail,
          Except.ok ())
  | Command.deleteRecord o =>
    match zone with
    | none => ([], Except.error zoneErr)
    | some z =>
      let name := o.name
      let clsS := cls.toStr
      let tyS := o.ty.toStr
      let rsf := record_set_from parse o.name cls o.ty 0 o.rdata
      match rsf.2 with
      | Except.error e => (rsf.1, Except.error e)
      | Except.ok rs =>
        (rsf.1 ++
          [Event.print s!"; sending delete-record: {name} {clsS} {tyS} from {z}",
            Event.submit (Request.delete_by_rdata rs z)] ++ respTail,
          Except.ok ())

/-- The transport protocol enumeration. -/
inductive Protocol
  | Udp
  | Tcp
  | Tls
  | Https
  | Quic
deriving DecidableEq

/-- The parsed command-line options (`Opts`).  The source field `class` is
named `cls` (`class` is a Lean keyword); `alpn` holds the value after
clap's conditional defaulting (`resolveAlpn`). -/
structure Opts where
  nameserver : String
  protocol : Protocol
  tls_dns_name : Option String
  alpn : Option String
  do_not_verify_nameserver_cert : Bool
  zone : Option Name
  cls : DNSClass
  command : Command
deriving DecidableEq

/-- clap's `default_value_ifs` on the `alpn` option: a supplied value wins;
otherwise no default for TLS, `h2` for HTTPS, `doq` for QUIC. -/
def resolveAlpn (protocol : Protocol) (supplied : Option String) : Option String :=
  match supplied with
  | some a => some a
  | none =>
    match protocol with
    | Protocol.Https => some "h2"
    | Protocol.Quic => some "doq"
    | _ => none

/-- Assemble an `Opts` from raw command-line values, applying clap's
conditional defaulting of the ALPN option. -/
def Opts.build (ns : String) (protocol : Protocol) (tlsName : Option String)
    (alpnSupplied : Option String) (insecure : Bool) (zone : Option Name)
    (cls : DNSClass) (command : Command) : Opts :=
  { nameserver := ns, protocol := protocol, tls_dns_name := tlsName
    alpn := resolveAlpn protocol alpnSupplied
    do_not_verify_nameserver_cert := insecure
    zone := zone, cls := cls, command := command }

/-- clap's semantics of the bare `--must-exist` boolean flag on the append
subcommand: `true` iff the flag is present on the command line. -/
def mkAppendOpt (mustExistFlagPresent : Bool) (name : Name) (ty : RecordType)
    (ttl : Nat) (rdata : List String) : AppendOpt :=
  { must_exist := mustExistFlagPresent, name := name, ty := ty
    ttl := ttl, rdata := rdata }

/-- `main` (after argument parsing and logger setup): selects the protocol
arm, builds the transport (emitting its one-line description and a
`connect` event at the `AsyncClient` establishment point), and runs
`handle_request`.  Missing `tls_dns_name` / ALPN values hit the source's
`expect` calls before any transport work. -/
def main (parse : RecordType → String → Option RData) (opts : Opts) :
    List Event × Except DnsError Unit :=
  let nameserver := opts.nameserver
  let cls := opts.cls
  let zone := opts.zone
  let command := opts.command
  match opts.protocol with
  | Protocol.Udp =>
    let hr := handle_request parse cls zone command
    ([Event.print s!"; using udp:{nameserver}",
      Event.connect (ConnectInfo.udp nameserver)] ++ hr.1, hr.2)
  | Protocol.Tcp =>
    let hr := handle_request parse cls zone command
    ([Event.print s!"; using tcp:{nameserver}",
      Event.connect (ConnectInfo.tcp nameserver)] ++ hr.1, hr.2)
  | Protocol.Tls =>
    match opts.tls_dns_name with
    | none =>
      ([], Except.error (DnsError.expectPanic "tls_dns_name is required tls connections"))
    | some dns_name =>
      let config := tls_config
      let config :=
        if opts.do_not_verify_nameserver_cert then
          do_not_verify_nameserver_cert config
        else config
      let hr := handle_request parse cls zone command
      ([Event.print s!"; using tls:{nameserver} dns_name:{dns_name}",
        Event.connect (ConnectInfo.tls nameserver dns_name config)] ++ hr.1, hr.2)
  | Protocol.Https =>
    match opts.alpn with
    | none => ([], Except.error (DnsError.expectPanic "ALPN is required for HTTPS"))
    | some alpn =>
      match opts.tls_dns_name with
      | none =>
        ([], Except.error (DnsError.expectPanic "tls_dns_name is required https connections"))
      | some dns_name =>
        let config := tls_config
        let config :=
          if opts.do_not_verify_nameserver_cert then
            do_not_verify_nameserver_cert config
          else config
        let config := { config with alpn_protocols := config.alpn_protocols ++ [alpn] }
        let hr := handle_request parse cls zone command
        ([Event.print s!"; using https:{nameserver} dns_name:{dns_name}",
          Event.connect (ConnectInfo.https nameserver dns_name config)] ++ hr.1, hr.2)
  | Protocol.Quic =>
    match opts.alpn with
    | none => ([], Except.error (DnsError.expectPanic "ALPN is required for HTTPS"))
    | some alpn =>
      match opts.tls_dns_name with
      | none =>
        ([], Except.error (DnsError.expectPanic "tls_dns_name is required quic connections"))
      | some dns_name =>
        let config := client_config_tls13_webpki_roots
        let config :=
          if opts.do_not_verify_nameserver_cert then
            do_not_verify_nameserver_cert config
          else config
        let config := { config with alpn_protocols := config.alpn_protocols ++ [alpn] }
        let hr := handle_request parse cls zone command
        ([Event.print s!"; using quic:{nameserver} dns_name:{dns_name}",
          Event.connect (ConnectInfo.quic nameserver dns_name config)] ++ hr.1, hr.2)

/-! ### Trace helper lemmas -/

theorem connects_append (s t : List Event) :
    connects (s ++ t) = connects s ++ connects t := by
  simp [connects, List.filterMap_append]

theorem submits_append (s t : List Event) :
    submits (s ++ t) = submits s ++ submits t := by
  simp [submits, List.filterMap_append]

/-- `handle_request` never establishes a transport connection: the trace it
produces contains no connect event. -/
theorem connects_handle_request (parse : RecordType → String → Option RData)
    (cls : DNSClass) (zone : Option Name) (command : Command) :
    connects (handle_request parse cls zone command).1 = [] := by
  cases command with
  | query q => rfl
  | notify o =>
    by_cases h : o.rdata.isEmpty
    · simp only [handle_request, h, if_true]
      rfl
    · simp only [handle_request, h, if_false]
      cases haa :
          (record_set_from parse o.name cls o.ty 0 o.rdata).2 <;>
        simp [haa, record_set_from] at haa ⊢ <;>
        simp [record_set_from, haa, respTail, connects, List.filterMap]
  | create o =>
    cases zone with
    | none => rfl
    | some z =>
      simp only [handle_request]
      cases haa :
          (record_set_from parse o.name cls o.ty o.ttl o.rdata).2 <;>
        simp [record_set_from] at haa <;>
        simp [record_set_from, haa, respTail, connects, List.filterMap]
  | append o =>
    cases zone with
    | none => rfl
    | some z =>
      simp only [handle_request]
      cases haa :
          (record_set_from parse o.name cls o.ty o.ttl o.rdata).2 <;>
        simp [record_set_from] at haa <;>
        simp [record_set_from, haa, respTail, connects, List.filterMap]
  | deleteRecord o =>
    cases zone with
    | none => rfl
    | some z =>
      simp only [handle_request]
      cases haa :
          (record_set_from parse o.name cls o.ty 0 o.rdata).2 <;>
        simp [record_set_from] at haa <;>
        simp [record_set_from, haa, respTail, connects, List.filterMap]

/-- Whenever `handle_request` fails, nothing was submitted: its trace
contains no submit event. -/
theorem submits_handle_request_err (parse : RecordType → String → Option RData)
    (cls : DNSClass) (zone : Option Name) (command : Command) (e : DnsError)
    (h : (handle_request parse cls zone command).2 = Except.error e) :
    submits (handle_request parse cls zone command).1 = [] := by
  cases command with
  | query q => simp [handle_request] at h
  | notify o =>
    by_cases hemp : o.rdata.isEmpty
    · simp [handle_request, hemp] at h
    · simp only [handle_request, hemp, if_false] at h ⊢
      cases haa : (record_set_from parse o.name cls o.ty 0 o.rdata).2 <;>
        simp [haa] at h ⊢ <;>
        simp [record_set_from, submits, List.filterMap]
  | create o =>
    cases zone with
    | none => rfl
    | some z =>
      simp only [handle_request] at h ⊢
      cases haa : (record_set_from parse o.name cls o.ty o.ttl o.rdata).2 <;>
        simp [haa] at h ⊢ <;>
        simp [record_set_from, submits, List.filterMap]
  | append o =>
    cases zone with
    | none => rfl
    | some z =>
      simp only [handle_request] at h ⊢
      cases haa : (record_set_from parse o.name cls o.ty o.ttl o.rdata).2 <;>
        simp [haa] at h ⊢ <;>
        simp [record_set_from, submits, List.filterMap]
  | deleteRecord o =>
    cases zone with
    | none => rfl
    | some z =>
      simp only [handle_request] at h ⊢
      cases haa : (record_set_from parse o.name cls o.ty 0 o.rdata).2 <;>
        simp [haa] at h ⊢ <;>
        simp [record_set_from, submits, List.filterMap]

/-! ### `addAll` / `record_set_from` characterization -/

/-- If some string of the list fails to parse, the add loop panics with the
source's "failed to parse rdata" message, from any starting set. -/
theorem addAll_err (parse : RecordType → String → Option RData)
    (ty : RecordType) (r : String) (hnone : parse ty r = none) :
    ∀ (l : List String), r ∈ l → ∀ rs : RecordSet,
      addAll parse ty rs l = Except.error parseErr := by
  intro l
  induction l with
  | nil => intro hr; cases hr
  | cons a as ih =>
    intro hr rs
    cases hpa : parse ty a with
    | none => simp [addAll, hpa]
    | some d =>
      have hmem : r ∈ as := by
        rcases List.mem_cons.mp hr with h1 | h1
        · rw [h1, hpa] at hnone; cases hnone
        · exact h1
      simp [addAll, hpa, ih hmem (rs.add_rdata d)]

/-- If every string parses, the add loop is the left fold of `add_rdata`
over the parsed values, in input order. -/
theorem addAll_ok (parse : RecordType → String → Option RData)
    (ty : RecordType) :
    ∀ (l : List String) (rs : RecordSet),
      (∀ r ∈ l, (parse ty r).isSome = true) →
      addAll parse ty rs l =
        Except.ok (List.foldl RecordSet.add_rdata rs (l.filterMap (parse ty))) := by
  intro l
  induction l with
  | nil => intro rs _; rfl
  | cons a as ih =>
    intro rs h
    have ha := h a (List.mem_cons_self a as)
    rcases Option.isSome_iff_exists.mp ha with ⟨d, hd⟩
    have tail := ih (rs.add_rdata d) (fun r hr => h r (List.mem_cons_of_mem _ hr))
    simp [addAll, hd, tail, List.filterMap_cons]

/-- Folding `add_rdata` appends the values to the record list in order. -/
theorem foldl_add_rdata_records (ds : List RData) :
    ∀ rs : RecordSet,
      (List.foldl RecordSet.add_rdata rs ds).records = rs.records ++ ds := by
  induction ds with
  | nil => intro rs; simp
  | cons d ds ih =>
    intro rs
    rw [List.foldl_cons, ih (rs.add_rdata d)]
    simp [RecordSet.add_rdata]

/-- Folding `add_rdata` leaves name, type, TTL, and class unchanged. -/
theorem foldl_add_rdata_fields (ds : List RData) :
    ∀ rs : RecordSet,
      (List.foldl RecordSet.add_rdata rs ds).name = rs.name ∧
      (List.foldl RecordSet.add_rdata rs ds).record_type = rs.record_type ∧
      (List.foldl RecordSet.add_rdata rs ds).ttl = rs.ttl ∧
      (List.foldl RecordSet.add_rdata rs ds).dns_class = rs.dns_class := by
  induction ds with
  | nil => intro rs; exact ⟨rfl, rfl, rfl, rfl⟩
  | cons d ds ih =>
    intro rs
    simpa [RecordSet.add_rdata] using ih (rs.add_rdata d)

/-- Any record set the add loop returns keeps the starting set's name,
type, TTL, and class. -/
theorem addAll_fields (parse : RecordType → String → Option RData)
    (ty : RecordType) :
    ∀ (l : List String) (rs rs' : RecordSet),
      addAll parse ty rs l = Except.ok rs' →
      rs'.name = rs.name ∧ rs'.record_type = rs.record_type ∧
      rs'.ttl = rs.ttl ∧ rs'.dns_class = rs.dns_class := by
  intro l
  induction l with
  | nil =>
    intro rs rs' h
    simp [addAll] at h
    rw [← h]
    exact ⟨rfl, rfl, rfl, rfl⟩
  | cons a as ih =>
    intro rs rs' h
    cases hpa : parse ty a with
    | none => simp [addAll, hpa] at h
    | some d =>
      simp only [addAll, hpa] at h
      have := ih (rs.add_rdata d) rs' h
      simpa [RecordSet.add_rdata] using this

/-- Any record set `record_set_from` returns carries exactly the arguments'
name, type, TTL, and class. -/
theorem record_set_from_ok_fields (parse : RecordType → String → Option RData)
    (name : Name) (cls : DNSClass) (ty : RecordType) (ttl : Nat)
    (rdata : List String) (rs : RecordSet)
    (h : (record_set_from parse name cls ty ttl rdata).2 = Except.ok rs) :
    rs.name = name ∧ rs.record_type = ty ∧ rs.ttl = ttl ∧ rs.dns_class = cls := by
  have := addAll_fields parse ty rdata
    ((RecordSet.with_ttl name ty ttl).set_dns_class cls) rs h
  simpa [RecordSet.with_ttl, RecordSet.set_dns_class] using this

/-- Shared helper: any update command dispatched without a zone fails with
the zone `expect` panic before emitting a single event. -/
theorem handle_request_none_zone (parse : RecordType → String → Option RData)
    (cls : DNSClass) (cmd : Command) (h : cmd.isUpdate = true) :
    handle_request parse cls none cmd = ([], Except.error zoneErr) := by
  cases cmd with
  | query q => simp [Command.isUpdate] at h
  | notify o => simp [Command.isUpdate] at h
  | create o => rfl
  | append o => rfl
  | deleteRecord o => rfl

/-- Whether the protocol-specific required options are present, so that the
protocol arm of `main` reaches `handle_request` (TLS server name for
TLS/HTTPS/QUIC, ALPN for HTTPS/QUIC). -/
def protoReady (o : Opts) : Bool :=
  match o.protocol with
  | Protocol.Udp => true
  | Protocol.Tcp => true
  | Protocol.Tls => o.tls_dns_name.isSome
  | Protocol.Https => o.tls_dns_name.isSome && o.alpn.isSome
  | Protocol.Quic => o.tls_dns_name.isSome && o.alpn.isSome

/-! ### Claim theorems -/

/-- C1: when the insecure-verification flag is set, every TLS client
configuration with which `main` builds a connection has its verifier
replaced by the dangerous one, and each of the three verification routines
of `DangerousVerifier` (server certificate chain, TLS 1.2 signature,
TLS 1.3 signature), on every invocation and for every input, prints exactly
one warning line to standard output and unconditionally returns success. -/
theorem c1_insecure_verifier (parse : RecordType → String → Option RData)
    (o : Opts) (hflag : o.do_not_verify_nameserver_cert = true) :
    (∀ info ∈ connects (main parse o).1, ∀ cfg : ClientConfig,
        info.configOf = some cfg → cfg.verifier = Verifier.dangerous)
  ∧ (∀ (ee : Certificate) (ints : List Certificate) (sn : ServerName)
        (scts : List (List Nat)) (ocsp : List Nat) (now : Nat),
        DangerousVerifier.verify_server_cert ee ints sn scts ocsp now
          = ([insecureWarning], Except.ok ServerCertVerified.assertion))
  ∧ (∀ (m : List Nat) (c : Certificate) (d : DigitallySignedStruct),
        DangerousVerifier.verify_tls12_signature m c d
          = ([insecureWarning], Except.ok HandshakeSignatureValid.assertion))
  ∧ (∀ (m : List Nat) (c : Certificate) (d : DigitallySignedStruct),
        DangerousVerifier.verify_tls13_signature m c d
          = ([insecureWarning], Except.ok HandshakeSignatureValid.assertion)) := by
  refine ⟨?_, fun _ _ _ _ _ _ => rfl, fun _ _ _ => rfl, fun _ _ _ => rfl⟩
  intro info hinfo cfg hcfg
  cases hp : o.protocol with
  | Udp =>
    simp only [main, hp] at hinfo
    rw [connects_append, connects_handle_request] at hinfo
    simp [connects, List.filterMap] at hinfo
    subst hinfo
    simp [ConnectInfo.configOf] at hcfg
  | Tcp =>
    simp only [main, hp] at hinfo
    rw [connects_append, connects_handle_request] at hinfo
    simp [connects, List.filterMap] at hinfo
    subst hinfo
    simp [ConnectInfo.configOf] at hcfg
  | Tls =>
    cases hn : o.tls_dns_name with
    | none => simp [main, hp, hn, connects] at hinfo
    | some dn =>
      simp only [main, hp, hn, hflag, if_true] at hinfo
      rw [connects_append, connects_handle_request] at hinfo
      simp [connects, List.filterMap] at hinfo
      subst hinfo
      simp only [ConnectInfo.configOf, Option.some.injEq] at hcfg
      rw [← hcfg]
      rfl
  | Https =>
    cases ha : o.alpn with
    | none => simp [main, hp, ha, connects] at hinfo
    | some a =>
      cases hn : o.tls_dns_name with
      | none => simp [main, hp, ha, hn, connects] at hinfo
      | some dn =>
        simp only [main, hp, ha, hn, hflag, if_true] at hinfo
        rw [connects_append, connects_handle_request] at hinfo
        simp [connects, List.filterMap] at hinfo
        subst hinfo
        simp only [ConnectInfo.configOf, Option.some.injEq] at hcfg
        rw [← hcfg]
        rfl
  | Quic =>
    cases ha : o.alpn with
    | none => simp [main, hp, ha, connects] at hinfo
    | some a =>
      cases hn : o.tls_dns_name with
      | none => simp [main, hp, ha, hn, connects] at hinfo
      | some dn =>
        simp only [main, hp, ha, hn, hflag, if_true] at hinfo
        rw [connects_append, connects_handle_request] at hinfo
        simp [connects, List.filterMap] at hinfo
        subst hinfo
        simp only [ConnectInfo.configOf, Option.some.injEq] at hcfg
        rw [← hcfg]
        rfl

/-- Concrete options for the C1 witness: a TLS run with the insecure flag. -/
def c1opts : Opts :=
  { nameserver := "127.0.0.1:853", protocol := Protocol.Tls
    tls_dns_name := some "ns.example.com", alpn := none
    do_not_verify_nameserver_cert := true, zone := none, cls := DNSClass.IN
    command := Command.query { name := "example.com.", ty := RecordType.A } }

/-- C1 witness: at a concrete insecure TLS run, the built configuration's
verifier is the dangerous one, and the certificate-chain routine at a
concrete input prints the single warning line and succeeds. -/
theorem c1_insecure_verifier_witness :
    (ClientConfig.mk Verifier.dangerous []).verifier = Verifier.dangerous
  ∧ DangerousVerifier.verify_server_cert [48, 130] [] "ns.example.com" [] [] 1700000000
      = ([insecureWarning], Except.ok ServerCertVerified.assertion) := by
  have h := c1_insecure_verifier try_from_str c1opts rfl
  exact ⟨h.1 (ConnectInfo.tls "127.0.0.1:853" "ns.example.com"
      (ClientConfig.mk Verifier.dangerous [])) (by decide)
      (ClientConfig.mk Verifier.dangerous []) rfl,
    h.2.1 [48, 130] [] "ns.example.com" [] [] 1700000000⟩

/-- C2: for every run whose protocol is TLS, HTTPS, or QUIC and in which no
TLS server name is supplied, `main` fails (with the corresponding
configuration `expect` panic) and its trace is empty: no socket is opened,
no connection is built, nothing is printed, and no request is submitted. -/
theorem c2_missing_tls_name_no_network
    (parse : RecordType → String → Option RData) (o : Opts)
    (hp : o.protocol = Protocol.Tls ∨ o.protocol = Protocol.Https ∨
      o.protocol = Protocol.Quic)
    (hn : o.tls_dns_name = none) :
    (main parse o).1 = [] ∧ ∃ e : DnsError, (main parse o).2 = Except.error e := by
  rcases hp with hp | hp | hp
  · exact ⟨by simp [main, hp, hn],
      ⟨DnsError.expectPanic "tls_dns_name is required tls connections",
        by simp [main, hp, hn]⟩⟩
  · cases ha : o.alpn with
    | none =>
      exact ⟨by simp [main, hp, ha],
        ⟨DnsError.expectPanic "ALPN is required for HTTPS", by simp [main, hp, ha]⟩⟩
    | some a =>
      exact ⟨by simp [main, hp, ha, hn],
        ⟨DnsError.expectPanic "tls_dns_name is required https connections",
          by simp [main, hp, ha, hn]⟩⟩
  · cases ha : o.alpn with
    | none =>
      exact ⟨by simp [main, hp, ha],
        ⟨DnsError.expectPanic "ALPN is required for HTTPS", by simp [main, hp, ha]⟩⟩
    | some a =>
      exact ⟨by simp [main, hp, ha, hn],
        ⟨DnsError.expectPanic "tls_dns_name is required quic connections",
          by simp [main, hp, ha, hn]⟩⟩

/-- Concrete options for the C2 witness: a TLS run without a server name. -/
def c2opts : Opts :=
  { nameserver := "127.0.0.1:853", protocol := Protocol.Tls
    tls_dns_name := none, alpn := none
    do_not_verify_nameserver_cert := false, zone := none, cls := DNSClass.IN
    command := Command.query { name := "example.com.", ty := RecordType.A } }

/-- C2 witness: the concrete TLS run without a server name produces an empty
trace and an error. -/
theorem c2_missing_tls_name_no_network_witness :
    (c2opts.protocol = Protocol.Tls ∨ c2opts.protocol = Protocol.Https ∨
      c2opts.protocol = Protocol.Quic)
  ∧ c2opts.tls_dns_name = none
  ∧ ((main try_from_str c2opts).1 = [] ∧
      ∃ e : DnsError, (main try_from_str c2opts).2 = Except.error e) :=
  ⟨Or.inl rfl, rfl,
    c2_missing_tls_name_no_network try_from_str c2opts (Or.inl rfl) rfl⟩

/-- C3: every Create, Append, or DeleteRecord dispatch with no zone
supplied fails with the zone-precondition panic and emits no event at all:
in particular `record_set_from` is never entered (no
`Event.enterRecordSetFrom`) and nothing is submitted. -/
theorem c3_missing_zone_no_recordset
    (parse : RecordType → String → Option RData) (cls : DNSClass)
    (cmd : Command) (h : cmd.isUpdate = true) :
    handle_request parse cls none cmd = ([], Except.error zoneErr) :=
  handle_request_none_zone parse cls cmd h

/-- C3 witness: a concrete Create dispatch without a zone yields exactly the
zone error and the empty trace. -/
theorem c3_missing_zone_no_recordset_witness :
    (Command.create
        { name := "www.example.com.", ty := RecordType.A, ttl := 300
          rdata := ["192.0.2.1"] }).isUpdate = true
  ∧ handle_request try_from_str DNSClass.IN none
      (Command.create
        { name := "www.example.com.", ty := RecordType.A, ttl := 300
          rdata := ["192.0.2.1"] }) = ([], Except.error zoneErr) :=
  ⟨rfl,
    c3_missing_zone_no_recordset try_from_str DNSClass.IN
      (Command.create
        { name := "www.example.com.", ty := RecordType.A, ttl := 300
          rdata := ["192.0.2.1"] }) rfl⟩

/-- Concrete options for C4: a TCP run of Create with no zone supplied. -/
def c4opts : Opts :=
  { nameserver := "127.0.0.1:53", protocol := Protocol.Tcp
    tls_dns_name := none, alpn := none
    do_not_verify_nameserver_cert := false, zone := none, cls := DNSClass.IN
    command := Command.create
      { name := "www.example.com.", ty := RecordType.A, ttl := 300
        rdata := ["192.0.2.1"] } }

/-- C4 counterexample: for the concrete TCP Create run with no zone, the
trace contains a transport-connect event (the TCP connection is
established) and only then is the missing-zone error raised — refuting the
claim that no transport connection is opened before the missing-zone error
on every such run. -/
theorem c4_connect_before_zone_error_counterexample :
    main try_from_str c4opts =
      ([Event.print "; using tcp:127.0.0.1:53",
        Event.connect (ConnectInfo.tcp "127.0.0.1:53")],
        Except.error zoneErr) := by
  rfl

/-- C4 (amended): a missing zone for an update operation is detected only
inside the request handler, after the transport connection has been built:
for every run whose protocol-specific options are otherwise complete, the
run fails with the missing-zone error, exactly one connection is
established beforehand, and no RecordSet is constructed
(`record_set_from` is never entered) and no request is submitted. -/
theorem c4_missing_zone_after_connect
    (parse : RecordType → String → Option RData) (o : Opts)
    (hcmd : o.command.isUpdate = true) (hz : o.zone = none)
    (hready : protoReady o = true) :
    (main parse o).2 = Except.error zoneErr
  ∧ (connects (main parse o).1).length = 1
  ∧ Event.enterRecordSetFrom ∉ (main parse o).1
  ∧ submits (main parse o).1 = [] := by
  have hhr := handle_request_none_zone parse o.cls o.command hcmd
  cases hp : o.protocol with
  | Udp =>
    simp only [main, hp, hz, hhr]
    simp [connects, submits, List.filterMap]
  | Tcp =>
    simp only [main, hp, hz, hhr]
    simp [connects, submits, List.filterMap]
  | Tls =>
    cases hn : o.tls_dns_name with
    | none => simp [protoReady, hp, hn] at hready
    | some dn =>
      simp only [main, hp, hn, hz, hhr]
      simp [connects, submits, List.filterMap]
  | Https =>
    cases hn : o.tls_dns_name with
    | none => simp [protoReady, hp, hn] at hready
    | some dn =>
      cases ha : o.alpn with
      | none => simp [protoReady, hp, ha] at hready
      | some a =>
        simp only [main, hp, ha, hn, hz, hhr]
        simp [connects, submits, List.filterMap]
  | Quic =>
    cases hn : o.tls_dns_name with
    | none => simp [protoReady, hp, hn] at hready
    | some dn =>
      cases ha : o.alpn with
      | none => simp [protoReady, hp, ha] at hready
      | some a =>
        simp only [main, hp, ha, hn, hz, hhr]
        simp [connects, submits, List.filterMap]

/-- C4 witness for the amended theorem, at the concrete TCP Create run. -/
theorem c4_missing_zone_after_connect_witness :
    c4opts.command.isUpdate = true
  ∧ c4opts.zone = none
  ∧ protoReady c4opts = true
  ∧ ((main try_from_str c4opts).2 = Except.error zoneErr
      ∧ (connects (main try_from_str c4opts).1).length = 1
      ∧ Event.enterRecordSetFrom ∉ (main try_from_str c4opts).1
      ∧ submits (main try_from_str c4opts).1 = []) :=
  ⟨rfl, rfl, rfl,
    c4_missing_zone_after_connect try_from_str c4opts rfl rfl rfl⟩

/-- C5: for every dispatched operation whose record-data list contains a
string the declared-type parser rejects, `handle_request` fails fatally and
submits nothing: no (partial) RecordSet reaches the client's request
call. -/
theorem c5_bad_rdata_no_submit (parse : RecordType → String → Option RData)
    (cls : DNSClass) (z : Option Name) (cmd : Command)
    (hbad : ∃ r ∈ cmd.rdataOf, parse cmd.tyOf r = none) :
    (∃ e : DnsError, (handle_request parse cls z cmd).2 = Except.error e)
  ∧ submits (handle_request parse cls z cmd).1 = [] := by
  obtain ⟨r, hr, hnone⟩ := hbad
  cases cmd with
  | query q =>
    simp [Command.rdataOf] at hr
  | notify o =>
    simp only [Command.rdataOf] at hr
    simp only [Command.tyOf] at hnone
    have hemp : o.rdata.isEmpty = false := by
      cases hl : o.rdata with
      | nil => exact absurd (hl ▸ hr) (List.not_mem_nil r)
      | cons a as => rfl
    have haa := addAll_err parse o.ty r hnone o.rdata hr
      ((RecordSet.with_ttl o.name o.ty 0).set_dns_class cls)
    have heq : handle_request parse cls z (Command.notify o)
        = ([Event.enterRecordSetFrom], Except.error parseErr) := by
      simp only [handle_request, hemp, Bool.false_eq_true, if_false,
        record_set_from]
      rw [haa]
    rw [heq]
    exact ⟨⟨parseErr, rfl⟩, rfl⟩
  | create o =>
    cases z with
    | none => exact ⟨⟨zoneErr, rfl⟩, rfl⟩
    | some zz =>
      simp only [Command.rdataOf] at hr
      simp only [Command.tyOf] at hnone
      have haa := addAll_err parse o.ty r hnone o.rdata hr
        ((RecordSet.with_ttl o.name o.ty o.ttl).set_dns_class cls)
      have heq : handle_request parse cls (some zz) (Command.create o)
          = ([Event.enterRecordSetFrom], Except.error parseErr) := by
        simp only [handle_request, record_set_from]
        rw [haa]
      rw [heq]
      exact ⟨⟨parseErr, rfl⟩, rfl⟩
  | append o =>
    cases z with
    | none => exact ⟨⟨zoneErr, rfl⟩, rfl⟩
    | some zz =>
      simp only [Command.rdataOf] at hr
      simp only [Command.tyOf] at hnone
      have haa := addAll_err parse o.ty r hnone o.rdata hr
        ((RecordSet.with_ttl o.name o.ty o.ttl).set_dns_class cls)
      have heq : handle_request parse cls (some zz) (Command.append o)
          = ([Event.enterRecordSetFrom], Except.error parseErr) := by
        simp only [handle_request, record_set_from]
        rw [haa]
      rw [heq]
      exact ⟨⟨parseErr, rfl⟩, rfl⟩
  | deleteRecord o =>
    cases z with
    | none => exact ⟨⟨zoneErr, rfl⟩, rfl⟩
    | some zz =>
      simp only [Command.rdataOf] at hr
      simp only [Command.tyOf] at hnone
      have haa := addAll_err parse o.ty r hnone o.rdata hr
        ((RecordSet.with_ttl o.name o.ty 0).set_dns_class cls)
      have heq : handle_request parse cls (some zz) (Command.deleteRecord o)
          = ([Event.enterRecordSetFrom], Except.error parseErr) := by
        simp only [handle_request, record_set_from]
        rw [haa]
      rw [heq]
      exact ⟨⟨parseErr, rfl⟩, rfl⟩

/-- Concrete command for the C5 witness: Create of an A record with one
unparsable record-data string. -/
def c5cmd : Command :=
  Command.create
    { name := "www.example.com.", ty := RecordType.A, ttl := 300
      rdata := ["not-an-ip"] }

/-- C5 witness: at the concrete Create with an unparsable A record-data
string, the dispatch errors and submits nothing. -/
theorem c5_bad_rdata_no_submit_witness :
    (∃ r ∈ c5cmd.rdataOf, try_from_str c5cmd.tyOf r = none)
  ∧ ((∃ e : DnsError,
        (handle_request try_from_str DNSClass.IN (some "example.com.") c5cmd).2
          = Except.error e)
      ∧ submits
          (handle_request try_from_str DNSClass.IN (some "example.com.") c5cmd).1
        = []) :=
  ⟨⟨"not-an-ip", by decide, by decide⟩,
    c5_bad_rdata_no_submit try_from_str DNSClass.IN (some "example.com.") c5cmd
      ⟨"not-an-ip", by decide, by decide⟩⟩

/-- C6: the RecordSet submitted by a Notify dispatch (when one is built)
and the RecordSet submitted by a DeleteRecord dispatch always have TTL 0:
both arms of `handle_request` pass the literal `ttl = 0`, and `NotifyOpt` /
`DeleteRecordOpt` carry no TTL argument, so this holds for every input. -/
theorem c6_notify_delete_ttl_zero (parse : RecordType → String → Option RData)
    (cls : DNSClass) (z : Option Name) (nopt : NotifyOpt)
    (dopt : DeleteRecordOpt) :
    (∀ req ∈ submits (handle_request parse cls z (Command.notify nopt)).1,
        ∀ rs ∈ req.recordSets, rs.ttl = 0)
  ∧ (∀ req ∈ submits (handle_request parse cls z (Command.deleteRecord dopt)).1,
        ∀ rs ∈ req.recordSets, rs.ttl = 0) := by
  constructor
  · intro req hreq rs hrs
    by_cases hemp : nopt.rdata.isEmpty = true
    · simp only [handle_request, hemp, if_true] at hreq
      simp [submits, respTail, List.filterMap] at hreq
      subst hreq
      simp [Request.recordSets] at hrs
    · rw [Bool.not_eq_true] at hemp
      simp only [handle_request, hemp, Bool.false_eq_true, if_false] at hreq
      cases haa : (record_set_from parse nopt.name cls nopt.ty 0 nopt.rdata).2 with
      | error e =>
        rw [haa] at hreq
        simp [submits, record_set_from, List.filterMap] at hreq
      | ok rs0 =>
        rw [haa] at hreq
        simp [submits, respTail, record_set_from, List.filterMap] at hreq
        subst hreq
        simp [Request.recordSets] at hrs
        subst hrs
        exact (record_set_from_ok_fields parse nopt.name cls nopt.ty 0
          nopt.rdata rs haa).2.2.1
  · intro req hreq rs hrs
    cases z with
    | none => simp [handle_request, submits, List.filterMap] at hreq
    | some z0 =>
      simp only [handle_request] at hreq
      cases haa : (record_set_from parse dopt.name cls dopt.ty 0 dopt.rdata).2 with
      | error e =>
        rw [haa] at hreq
        simp [submits, record_set_from, List.filterMap] at hreq
      | ok rs0 =>
        rw [haa] at hreq
        simp [submits, respTail, record_set_from, List.filterMap] at hreq
        subst hreq
        simp [Request.recordSets] at hrs
        subst hrs
        exact (record_set_from_ok_fields parse dopt.name cls dopt.ty 0
          dopt.rdata rs haa).2.2.1

/-- The record set built by the concrete Notify run in the C6 witness. -/
def c6rsN : RecordSet :=
  { name := "a.example.com.", record_type := RecordType.A, ttl := 0
    dns_class := DNSClass.IN, records := [RData.A 192 0 2 1] }

/-- The record set built by the concrete DeleteRecord run in the C6 witness. -/
def c6rsD : RecordSet :=
  { name := "b.example.com.", record_type := RecordType.A, ttl := 0
    dns_class := DNSClass.IN, records := [RData.A 203 0 113 7] }

/-- C6 witness: the record sets actually submitted by a concrete Notify run
and a concrete DeleteRecord run both carry TTL 0. -/
theorem c6_notify_delete_ttl_zero_witness : c6rsN.ttl = 0 ∧ c6rsD.ttl = 0 :=
  ⟨(c6_notify_delete_ttl_zero try_from_str DNSClass.IN (some "example.com.")
        { name := "a.example.com.", ty := RecordType.A, rdata := ["192.0.2.1"] }
        { name := "b.example.com.", ty := RecordType.A, rdata := ["203.0.113.7"] }).1
      (Request.notify "a.example.com." DNSClass.IN RecordType.A (some c6rsN))
      (by decide) c6rsN (by decide),
    (c6_notify_delete_ttl_zero try_from_str DNSClass.IN (some "example.com.")
        { name := "a.example.com.", ty := RecordType.A, rdata := ["192.0.2.1"] }
        { name := "b.example.com.", ty := RecordType.A, rdata := ["203.0.113.7"] }).2
      (Request.delete_by_rdata c6rsD "example.com.")
      (by decide) c6rsD (by decide)⟩

/-- C7: `record_set_from`, on record data that all parses, returns exactly
the left fold of `add_rdata` over the parsed values — i.e. it constructs an
empty set with the name, type and TTL, sets its class, and appends the
parsed values one by one — and every set it returns has the given name,
type, TTL and class with its record list equal to the parsed inputs in
input order. -/
theorem c7_record_set_build_order (parse : RecordType → String → Option RData)
    (name : Name) (cls : DNSClass) (ty : RecordType) (ttl : Nat)
    (rdata : List String)
    (hall : ∀ r ∈ rdata, (parse ty r).isSome = true) :
    (record_set_from parse name cls ty ttl rdata).2
      = Except.ok (List.foldl RecordSet.add_rdata
          ((RecordSet.with_ttl name ty ttl).set_dns_class cls)
          (rdata.filterMap (parse ty)))
  ∧ ∀ rs : RecordSet,
      (record_set_from parse name cls ty ttl rdata).2 = Except.ok rs →
      rs.records = rdata.filterMap (parse ty)
    ∧ rs.name = name ∧ rs.record_type = ty ∧ rs.ttl = ttl
    ∧ rs.dns_class = cls := by
  have h1 :=
    addAll_ok parse ty rdata ((RecordSet.with_ttl name ty ttl).set_dns_class cls) hall
  refine ⟨h1, ?_⟩
  intro rs hrs
  rw [show (record_set_from parse name cls ty ttl rdata).2
      = addAll parse ty ((RecordSet.with_ttl name ty ttl).set_dns_class cls) rdata
      from rfl, h1] at hrs
  have hrs' : List.foldl RecordSet.add_rdata
      ((RecordSet.with_ttl name ty ttl).set_dns_class cls)
      (rdata.filterMap (parse ty)) = rs := by
    exact Except.ok.inj hrs
  subst hrs'
  refine ⟨?_, ?_, ?_, ?_, ?_⟩
  · rw [foldl_add_rdata_records]
    simp [RecordSet.with_ttl, RecordSet.set_dns_class]
  · rw [(foldl_add_rdata_fields _ _).1]
    rfl
  · rw [(foldl_add_rdata_fields _ _).2.1]
    rfl
  · rw [(foldl_add_rdata_fields _ _).2.2.1]
    rfl
  · rw [(foldl_add_rdata_fields _ _).2.2.2]
    rfl

/-- C7 witness: a concrete two-element record-data list, all parsing, whose
build is the fold in input order. -/
theorem c7_record_set_build_order_witness :
    (∀ r ∈ ["192.0.2.1", "203.0.113.7"],
      (try_from_str RecordType.A r).isSome = true)
  ∧ (record_set_from try_from_str "www.example.com." DNSClass.IN RecordType.A
        7200 ["192.0.2.1", "203.0.113.7"]).2
      = Except.ok (List.foldl RecordSet.add_rdata
          ((RecordSet.with_ttl "www.example.com." RecordType.A 7200).set_dns_class
            DNSClass.IN)
          (["192.0.2.1", "203.0.113.7"].filterMap (try_from_str RecordType.A))) :=
  ⟨by decide,
    (c7_record_set_build_order try_from_str "www.example.com." DNSClass.IN
      RecordType.A 7200 ["192.0.2.1", "203.0.113.7"] (by decide)).1⟩

/-- C8: with no explicit ALPN supplied, clap's conditional defaulting
resolves the ALPN to "h2" for HTTPS and "doq" for QUIC, and in each case
the connection `main` builds carries a configuration whose
`alpn_protocols` already contains exactly that value. -/
theorem c8_alpn_defaults (parse : RecordType → String → Option RData)
    (ns sname : String) (insecure : Bool) (z : Option Name) (cls : DNSClass)
    (cmd : Command) :
    resolveAlpn Protocol.Https none = some "h2"
  ∧ resolveAlpn Protocol.Quic none = some "doq"
  ∧ (∃ cfg : ClientConfig,
      connects (main parse
          (Opts.build ns Protocol.Https (some sname) none insecure z cls cmd)).1
        = [ConnectInfo.https ns sname cfg] ∧ cfg.alpn_protocols = ["h2"])
  ∧ (∃ cfg : ClientConfig,
      connects (main parse
          (Opts.build ns Protocol.Quic (some sname) none insecure z cls cmd)).1
        = [ConnectInfo.quic ns sname cfg] ∧ cfg.alpn_protocols = ["doq"]) := by
  refine ⟨rfl, rfl, ?_, ?_⟩
  · cases insecure with
    | false =>
      refine ⟨ClientConfig.mk Verifier.webpkiDefault ["h2"], ?_, rfl⟩
      simp only [main, Opts.build, resolveAlpn]
      rw [connects_append, connects_handle_request]
      simp [connects, List.filterMap, tls_config, do_not_verify_nameserver_cert]
    | true =>
      refine ⟨ClientConfig.mk Verifier.dangerous ["h2"], ?_, rfl⟩
      simp only [main, Opts.build, resolveAlpn]
      rw [connects_append, connects_handle_request]
      simp [connects, List.filterMap, tls_config, do_not_verify_nameserver_cert]
  · cases insecure with
    | false =>
      refine ⟨ClientConfig.mk Verifier.webpkiDefault ["doq"], ?_, rfl⟩
      simp only [main, Opts.build, resolveAlpn]
      rw [connects_append, connects_handle_request]
      simp [connects, List.filterMap, client_config_tls13_webpki_roots,
        do_not_verify_nameserver_cert]
    | true =>
      refine ⟨ClientConfig.mk Verifier.dangerous ["doq"], ?_, rfl⟩
      simp only [main, Opts.build, resolveAlpn]
      rw [connects_append, connects_handle_request]
      simp [connects, List.filterMap, client_config_tls13_webpki_roots,
        do_not_verify_nameserver_cert]

/-- Concrete options for C9: a TLS run in which an ALPN value is explicitly
supplied on the command line. -/
def c9opts : Opts :=
  Opts.build "127.0.0.1:853" Protocol.Tls (some "ns.example.com") (some "dot")
    false none DNSClass.IN
    (Command.query { name := "example.com.", ty := RecordType.A })

/-- C9: evaluation of the code at the failing input.  The ALPN value "dot"
is explicitly supplied for a TLS run (clap keeps it: `c9opts.alpn = some
"dot"`), yet the TLS arm of `main` never reads it: the configuration with
which the connection is built still has an empty `alpn_protocols` list.
The claim (and the `--alpn` option's own help text, which covers TLS) says
the supplied value is applied; the code ignores it. -/
theorem c9_tls_alpn_ignored :
    c9opts.alpn = some "dot"
  ∧ connects (main try_from_str c9opts).1
      = [ConnectInfo.tls "127.0.0.1:853" "ns.example.com"
          (ClientConfig.mk Verifier.webpkiDefault [])] :=
  ⟨rfl, rfl⟩

/-- C10: the `--must-exist` flag of Append parses to `false` when absent
from the command line, and whatever its value, every append request that
`handle_request` submits carries the option's `must_exist` value unchanged
as its third argument. -/
theorem c10_append_must_exist_forwarded
    (parse : RecordType → String → Option RData) (cls : DNSClass)
    (z : Option Name) (name : Name) (ty : RecordType) (ttl : Nat)
    (rdata : List String) :
    (mkAppendOpt false name ty ttl rdata).must_exist = false
  ∧ ∀ (opt : AppendOpt) (req : Request),
      req ∈ submits (handle_request parse cls z (Command.append opt)).1 →
      ∀ (rs : RecordSet) (zz : Name) (me : Bool),
        req = Request.append rs zz me → me = opt.must_exist := by
  refine ⟨rfl, ?_⟩
  intro opt req hreq rs zz me heq
  cases z with
  | none => simp [handle_request, submits, List.filterMap] at hreq
  | some z0 =>
    simp only [handle_request] at hreq
    cases haa : (record_set_from parse opt.name cls opt.ty opt.ttl opt.rdata).2 with
    | error e =>
      rw [haa] at hreq
      simp [submits, record_set_from, List.filterMap] at hreq
    | ok rs0 =>
      rw [haa] at hreq
      simp [submits, respTail, record_set_from, List.filterMap] at hreq
      subst hreq
      cases heq
      rfl

/-- The record set built by the concrete Append run in the C10 witness. -/
def c10rs : RecordSet :=
  { name := "www.example.com.", record_type := RecordType.A, ttl := 300
    dns_class := DNSClass.IN, records := [RData.A 192 0 2 1] }

/-- C10 witness: for a concrete Append run with the flag present, the
submitted request's third argument equals the option's `must_exist`; and
the absent flag parses to `false`. -/
theorem c10_append_must_exist_forwarded_witness :
    (mkAppendOpt false "www.example.com." RecordType.A 300 ["192.0.2.1"]).must_exist
      = false
  ∧ true = (AppendOpt.mk true "www.example.com." RecordType.A 300
      ["192.0.2.1"]).must_exist :=
  ⟨(c10_append_must_exist_forwarded try_from_str DNSClass.IN
      (some "example.com.") "www.example.com." RecordType.A 300
      ["192.0.2.1"]).1,
    (c10_append_must_exist_forwarded try_from_str DNSClass.IN
      (some "example.com.") "www.example.com." RecordType.A 300
      ["192.0.2.1"]).2
      (AppendOpt.mk true "www.example.com." RecordType.A 300 ["192.0.2.1"])
      (Request.append c10rs "example.com." true) (by decide)
      c10rs "example.com." true rfl⟩

end DnsCli
